import Mathlib

/-!
# Endpoint locator of `bluemix-go` (`endpoints/endpoints.go`)

A shallow embedding of the endpoint locator: the package-level table
`regionToEndpoint`, the constructor `NewEndpointLocator` and the seven accessor
methods, each a two-level comma-ok map lookup followed by either an
environment fallback or an error.

Go strings are Lean `String`s (so a region is a sequence of valid Unicode scalar
values; byte strings that are not valid UTF-8 are outside the model).  A Go map
literal is an association list read with `List.lookup`.  The process state a
call can observe is a `World`: the package variable and the environment.  Every
accessor takes a `World` and returns its result together with the `World` it
leaves behind.
-/

namespace Endpoints

/-! ## Go runtime pieces used by the package -/

/-- Process environment: `none` for an unset variable, `some v` for a set one. -/
abbrev Env := String → Option String

/-- Go `os.Getenv`: the value of the variable, the empty string when unset. -/
def Getenv (env : Env) (key : String) : String :=
  (env key).getD ""

/-- Go `os.Setenv` on the model environment. -/
def Setenv (env : Env) (key value : String) : Env :=
  fun k => if k = key then some value else env k

/-- Go `os.Unsetenv` on the model environment. -/
def Unsetenv (env : Env) (key : String) : Env :=
  fun k => if k = key then none else env k

/-- The digits table `lowerhex` of package `strconv`. -/
def lowerhex : List Char := "0123456789abcdef".data

/-- Indexing `lowerhex[n]`. -/
def hexDigit (n : Nat) : Char := lowerhex.getD n '0'

/-- Go `strconv.IsPrint`.  The Latin-1 range is decided by the explicit
comparisons of the Go function; above it Go searches its generated Unicode
tables, which are the parameter `wide` here. -/
def IsPrint (wide : Nat → Bool) (r : Char) : Bool :=
  let n := r.toNat
  if n ≤ 0xFF then
    if 0x20 ≤ n ∧ n < 0x7F then true
    else if 0xA1 ≤ n then n != 0xAD
    else false
  else wide n

/-- Go `strconv.appendEscapedRune` with `quote = '"'`, `ASCIIonly = false`,
`graphicOnly = false`, the way `strconv.Quote` calls it. -/
def appendEscapedRune (wide : Nat → Bool) (buf : List Char) (r : Char) : List Char :=
  let n := r.toNat
  if n = 34 ∨ n = 92 then buf ++ [Char.ofNat 92, r]
  else if IsPrint wide r then buf ++ [r]
  else if n = 7 then buf ++ [Char.ofNat 92, 'a']
  else if n = 8 then buf ++ [Char.ofNat 92, 'b']
  else if n = 12 then buf ++ [Char.ofNat 92, 'f']
  else if n = 10 then buf ++ [Char.ofNat 92, 'n']
  else if n = 13 then buf ++ [Char.ofNat 92, 'r']
  else if n = 9 then buf ++ [Char.ofNat 92, 't']
  else if n = 11 then buf ++ [Char.ofNat 92, 'v']
  else if n < 0x20 ∨ n = 0x7F then
    buf ++ [Char.ofNat 92, 'x', hexDigit (n / 16 % 16), hexDigit (n % 16)]
  else if n < 0x10000 then
    buf ++ [Char.ofNat 92, 'u', hexDigit (n / 4096 % 16), hexDigit (n / 256 % 16),
      hexDigit (n / 16 % 16), hexDigit (n % 16)]
  else
    buf ++ [Char.ofNat 92, 'U', hexDigit (n / 268435456 % 16), hexDigit (n / 16777216 % 16),
      hexDigit (n / 1048576 % 16), hexDigit (n / 65536 % 16), hexDigit (n / 4096 % 16),
      hexDigit (n / 256 % 16), hexDigit (n / 16 % 16), hexDigit (n % 16)]

/-- Go `strconv.Quote`, which is what the verb `%q` of `fmt.Sprintf` prints for
a string operand: an opening quote, every rune through `appendEscapedRune`, a
closing quote. -/
def Quote (wide : Nat → Bool) (s : String) : String :=
  String.mk (s.data.foldl (appendEscapedRune wide) [Char.ofNat 34] ++ [Char.ofNat 34])

/-- Go `strings.Contains` on the model strings. -/
def Contains (s substr : String) : Prop := substr.data <:+: s.data

instance (s substr : String) : Decidable (Contains s substr) :=
  inferInstanceAs (Decidable (substr.data <:+: s.data))

/-! ## Helper packages of the repository -/

/-- Modelled from the spec: `helpers.EnvFallBack`, whose source file is not part
of the package.  "First environment variable in a short candidate list that is
set and non-empty wins, else fall back" to the default value. -/
def EnvFallBack (env : Env) (envs : List String) (defaultValue : String) : String :=
  match envs with
  | [] => defaultValue
  | k :: ks => if Getenv env k ≠ "" then Getenv env k else EnvFallBack env ks defaultValue

/-- Modelled from the spec: the two kinds of error value the accessors return.
`coded` is what `bmxerror.New code description` builds (package `bmxerror` is
not part of the package source): "a distinctly-coded error (a stable error
code) carrying a human-readable message".  `plain` is the value of
`fmt.Errorf`: "a plain, uncoded error with an analogous message". -/
inductive GoError where
  | coded (code : String) (description : String)
  | plain (msg : String)
  deriving DecidableEq, Repr

/-- The error code an error exposes, if it has one. -/
def GoError.code : GoError → Option String
  | .coded c _ => some c
  | .plain _ => none

/-- The human-readable message of an error. -/
def GoError.message : GoError → String
  | .coded _ d => d
  | .plain m => m

/-! ## The package `endpoints` -/

/-- The constant `ErrCodeServiceEndpoint`. -/
def ErrCodeServiceEndpoint : String := "ServiceEndpointDoesnotExist"

/-- The package variable `regionToEndpoint`, in source order. -/
def regionToEndpoint : List (String × List (String × String)) :=
  [ ("cf",
      [ ("us-south", "https://api.ng.bluemix.net"),
        ("us-east", "https://api.us-east.bluemix.net"),
        ("eu-gb", "https://api.eu-gb.bluemix.net"),
        ("au-syd", "https://api.au-syd.bluemix.net"),
        ("eu-de", "https://api.eu-de.bluemix.net") ]),
    ("mccp",
      [ ("us-south", "https://mccp.ng.bluemix.net"),
        ("us-east", "https://mccp.us-east.bluemix.net"),
        ("eu-gb", "https://mccp.eu-gb.bluemix.net"),
        ("au-syd", "https://mccp.au-syd.bluemix.net"),
        ("eu-de", "https://mccp.eu-de.bluemix.net") ]),
    ("iam",
      [ ("us-south", "https://iam.ng.bluemix.net"),
        ("us-east", "https://iam.us-east.bluemix.net"),
        ("eu-gb", "https://iam.eu-gb.bluemix.net"),
        ("au-syd", "https://iam.au-syd.bluemix.net"),
        ("eu-de", "https://iam.eu-de.bluemix.net") ]),
    ("iampap",
      [ ("us-south", "https://iampap.ng.bluemix.net"),
        ("us-east", "https://iam.us-east.bluemix.net"),
        ("eu-gb", "https://iampap.eu-gb.bluemix.net"),
        ("au-syd", "https://iampap.au-syd.bluemix.net") ]),
    ("uaa",
      [ ("us-south", "https://login.ng.bluemix.net/UAALoginServerWAR"),
        ("us-east", "https://login.us-east.bluemix.net/UAALoginServerWAR"),
        ("eu-gb", "https://login.eu-gb.bluemix.net/UAALoginServerWAR"),
        ("au-syd", "https://login.au-syd.bluemix.net/UAALoginServerWAR"),
        ("eu-de", "https://login.eu-de.bluemix.net/UAALoginServerWAR") ]),
    ("account",
      [ ("us-south", "https://accountmanagement.ng.bluemix.net"),
        ("us-east", "https://accountmanagement.us-east.bluemix.net"),
        ("eu-gb", "https://accountmanagement.eu-gb.bluemix.net"),
        ("au-syd", "https://accountmanagement.au-syd.bluemix.net"),
        ("eu-de", "https://accountmanagement.eu-de.bluemix.net") ]),
    ("cs",
      [ ("us-south", "https://us-south.containers.bluemix.net"),
        ("us-east", "https://us-east.containers.bluemix.net"),
        ("eu-de", "https://eu-central.containers.bluemix.net"),
        ("au-syd", "https://ap-south.containers.bluemix.net"),
        ("eu-gb", "https://uk-south.containers.bluemix.net") ]) ]

/-- What a call can read: the package variable and the process environment. -/
structure World where
  table : List (String × List (String × String))
  env : Env

/-- The world after package initialisation (`init` is empty) under `env`. -/
def World.start (env : Env) : World := ⟨regionToEndpoint, env⟩

/-- The comma-ok double index `m[service][region]`: a missing outer key gives
the nil map, in which every lookup misses. -/
def index2 (m : List (String × List (String × String))) (service region : String) :
    Option String :=
  ((m.lookup service).getD []).lookup region

/-- The struct `endpointLocator`. -/
structure endpointLocator where
  region : String
  deriving DecidableEq, Repr

/-- The constructor `NewEndpointLocator`. -/
def NewEndpointLocator (region : String) : endpointLocator :=
  { region := region }

/-- Result of an accessor: the pair `(string, error)` and the world afterwards. -/
abbrev Result := (String × Option GoError) × World

/-- The method `CFAPIEndpoint`. -/
def CFAPIEndpoint (wide : Nat → Bool) (e : endpointLocator) (w : World) : Result :=
  match index2 w.table "cf" e.region with
  | some ep => ((EnvFallBack w.env ["IBMCLOUD_CF_API_ENDPOINT"] ep, none), w)
  | none =>
    (("", some (.coded ErrCodeServiceEndpoint
      ("Cloud Foundry endpoint doesn't exist for region: " ++ Quote wide e.region))), w)

/-- The method `MCCPAPIEndpoint`. -/
def MCCPAPIEndpoint (wide : Nat → Bool) (e : endpointLocator) (w : World) : Result :=
  match index2 w.table "mccp" e.region with
  | some ep => ((EnvFallBack w.env ["IBMCLOUD_MCCP_API_ENDPOINT"] ep, none), w)
  | none =>
    (("", some (.coded ErrCodeServiceEndpoint
      ("MCCP API endpoint doesn't exist for region: " ++ Quote wide e.region))), w)

/-- The method `UAAEndpoint`. -/
def UAAEndpoint (wide : Nat → Bool) (e : endpointLocator) (w : World) : Result :=
  match index2 w.table "uaa" e.region with
  | some ep => ((EnvFallBack w.env ["IBMCLOUD_UAA_ENDPOINT"] ep, none), w)
  | none =>
    (("", some (.coded ErrCodeServiceEndpoint
      ("UAA endpoint doesn't exist for region: " ++ Quote wide e.region))), w)

/-- The method `AccountManagementEndpoint`. -/
def AccountManagementEndpoint (wide : Nat → Bool) (e : endpointLocator) (w : World) : Result :=
  match index2 w.table "account" e.region with
  | some ep => ((EnvFallBack w.env ["IBMCLOUD_ACCOUNT_MANAGEMENT_API_ENDPOINT"] ep, none), w)
  | none =>
    (("", some (.coded ErrCodeServiceEndpoint
      ("Account Management endpoint doesn't exist for region: " ++ Quote wide e.region))), w)

/-- The method `IAMEndpoint`. -/
def IAMEndpoint (wide : Nat → Bool) (e : endpointLocator) (w : World) : Result :=
  match index2 w.table "iam" e.region with
  | some ep => ((EnvFallBack w.env ["IBMCLOUD_IAM_API_ENDPOINT"] ep, none), w)
  | none =>
    (("", some (.coded ErrCodeServiceEndpoint
      ("IAM  endpoint doesn't exist for region: " ++ Quote wide e.region))), w)

/-- The method `IAMPAPEndpoint`. -/
def IAMPAPEndpoint (wide : Nat → Bool) (e : endpointLocator) (w : World) : Result :=
  match index2 w.table "iampap" e.region with
  | some ep => ((EnvFallBack w.env ["IBMCLOUD_IAMPAP_API_ENDPOINT"] ep, none), w)
  | none =>
    (("", some (.plain
      ("IAMPAP  endpoint doesn't exist for region: " ++ Quote wide e.region))), w)

/-- The method `ContainerEndpoint`. -/
def ContainerEndpoint (wide : Nat → Bool) (e : endpointLocator) (w : World) : Result :=
  match index2 w.table "cs" e.region with
  | some ep => ((EnvFallBack w.env ["IBMCLOUD_CS_API_ENDPOINT"] ep, none), w)
  | none =>
    (("", some (.coded ErrCodeServiceEndpoint
      ("Container Service endpoint doesn't exist for region: " ++ Quote wide e.region))), w)

/-! ## Vocabulary of the specification -/

/-- The seven methods of the interface `EndpointLocator`. -/
inductive Service where
  | cf | mccp | uaa | account | iam | iampap | cs
  deriving DecidableEq, Repr

/-- Dispatch of a method of the interface on a locator. -/
def Service.call (wide : Nat → Bool) : Service → endpointLocator → World → Result
  | .cf => CFAPIEndpoint wide
  | .mccp => MCCPAPIEndpoint wide
  | .uaa => UAAEndpoint wide
  | .account => AccountManagementEndpoint wide
  | .iam => IAMEndpoint wide
  | .iampap => IAMPAPEndpoint wide
  | .cs => ContainerEndpoint wide

/-- The key of the service's sub-map in `regionToEndpoint`. -/
def Service.key : Service → String
  | .cf => "cf" | .mccp => "mccp" | .uaa => "uaa" | .account => "account"
  | .iam => "iam" | .iampap => "iampap" | .cs => "cs"

/-- The override variable the specification lists for the service. -/
def Service.envVar : Service → String
  | .cf => "IBMCLOUD_CF_API_ENDPOINT"
  | .mccp => "IBMCLOUD_MCCP_API_ENDPOINT"
  | .uaa => "IBMCLOUD_UAA_ENDPOINT"
  | .account => "IBMCLOUD_ACCOUNT_MANAGEMENT_API_ENDPOINT"
  | .iam => "IBMCLOUD_IAM_API_ENDPOINT"
  | .iampap => "IBMCLOUD_IAMPAP_API_ENDPOINT"
  | .cs => "IBMCLOUD_CS_API_ENDPOINT"

/-- The human name of the service in error messages. -/
def Service.humanName : Service → String
  | .cf => "Cloud Foundry" | .mccp => "MCCP API" | .uaa => "UAA"
  | .account => "Account Management" | .iam => "IAM" | .iampap => "IAMPAP"
  | .cs => "Container Service"

/-- The service's sub-map of `regionToEndpoint`. -/
def subMap (s : Service) : List (String × String) :=
  (regionToEndpoint.lookup s.key).getD []

/-- The table entry for a service and a region, if the table has one. -/
def tableURL (s : Service) (region : String) : Option String :=
  (subMap s).lookup region

/-- The text with which the service's error message starts in the source, up to
the quoted region. -/
def Service.messageHead : Service → String
  | .cf => "Cloud Foundry endpoint doesn't exist for region: "
  | .mccp => "MCCP API endpoint doesn't exist for region: "
  | .uaa => "UAA endpoint doesn't exist for region: "
  | .account => "Account Management endpoint doesn't exist for region: "
  | .iam => "IAM  endpoint doesn't exist for region: "
  | .iampap => "IAMPAP  endpoint doesn't exist for region: "
  | .cs => "Container Service endpoint doesn't exist for region: "

/-- The error value the service's accessor builds for a region. -/
def Service.missing (wide : Nat → Bool) (s : Service) (region : String) : GoError :=
  match s with
  | .iampap => .plain (s.messageHead ++ Quote wide region)
  | _ => .coded ErrCodeServiceEndpoint (s.messageHead ++ Quote wide region)

/-- The message template of the specification: the human name, the fixed text
with one space before "endpoint", the region as `%q` prints it. -/
def specMessage (wide : Nat → Bool) (s : Service) (region : String) : String :=
  s.humanName ++ " endpoint doesn't exist for region: " ++ Quote wide region

/-- The regions the specification lists for a service. -/
def Service.regions : Service → List String
  | .iampap => ["us-south", "us-east", "eu-gb", "au-syd"]
  | _ => ["us-south", "us-east", "eu-gb", "au-syd", "eu-de"]

/-- An environment with no variable set. -/
def emptyEnv : Env := fun _ => none

/-- A rune that `%q` prints as itself: printable, and neither the double quote
(34) nor the backslash (92). -/
def Plain (wide : Nat → Bool) (c : Char) : Prop :=
  c.toNat ≠ 34 ∧ c.toNat ≠ 92 ∧ IsPrint wide c = true

instance (wide : Nat → Bool) (c : Char) : Decidable (Plain wide c) :=
  inferInstanceAs (Decidable (_ ∧ _))

/-- Go `unicode.IsSpace`: the Latin-1 white space characters and the Unicode
`White_Space` code points above Latin-1. -/
def IsSpace (c : Char) : Bool :=
  let n := c.toNat
  if n ≤ 0xFF then
    n = 9 || n = 10 || n = 11 || n = 12 || n = 13 || n = 32 || n = 0x85 || n = 0xA0
  else
    n = 0x1680 || (0x2000 ≤ n && n ≤ 0x200A) || n = 0x2028 || n = 0x2029 ||
      n = 0x202F || n = 0x205F || n = 0x3000

/-- The shape of a base URL: non-empty, starting with "https://", free of white
space, and not ending with "/". -/
def BaseURLShape (url : String) : Prop :=
  url ≠ "" ∧ "https://".data <+: url.data ∧ (∀ c ∈ url.data, IsSpace c = false) ∧
    ¬ "/".data <:+ url.data

instance (url : String) : Decidable (BaseURLShape url) :=
  inferInstanceAs (Decidable (_ ∧ _))

/-- The seven services, in the order of the table. -/
def allServices : List Service :=
  [.cf, .mccp, .iam, .iampap, .uaa, .account, .cs]

/-- Every (service, region, URL) triple of `regionToEndpoint`. -/
def entries : List (Service × String × String) :=
  allServices.flatMap fun s => (subMap s).map fun p => (s, p.1, p.2)

/-- The one pair of distinct table positions the specification names as sharing
a URL: IAM and IAMPAP for the region "us-east". -/
def SharedPair (s1 s2 : Service) (r1 r2 : String) : Prop :=
  r1 = "us-east" ∧ r2 = "us-east" ∧
    ((s1 = .iam ∧ s2 = .iampap) ∨ (s1 = .iampap ∧ s2 = .iam))

instance (s1 s2 : Service) (r1 r2 : String) : Decidable (SharedPair s1 s2 r1 r2) :=
  inferInstanceAs (Decidable (_ ∧ _))

/-! ## Lemmas on the runtime pieces -/

theorem lookup_isSome_iff_mem_keys (l : List (String × String)) (k : String) :
    (l.lookup k).isSome = true ↔ k ∈ l.map Prod.fst := by
  induction l with
  | nil => simp
  | cons p ps ih =>
    obtain ⟨a, b⟩ := p
    by_cases h : k = a
    · subst h; simp [List.lookup]
    · have hb : (k == a) = false := by simpa using h
      simp [List.lookup, hb, ih, h]

theorem lookup_mem_values (l : List (String × String)) (k v : String)
    (h : l.lookup k = some v) : v ∈ l.map Prod.snd := by
  induction l with
  | nil => simp at h
  | cons p ps ih =>
    obtain ⟨a, b⟩ := p
    by_cases hk : (k == a) = true
    · simp [List.lookup, hk] at h
      simp [h]
    · have hb : (k == a) = false := by simpa using hk
      simp only [List.lookup, hb] at h
      simp [ih h]

theorem EnvFallBack_unset (env : Env) (k d : String) (h : env k = none) :
    EnvFallBack env [k] d = d := by
  simp [EnvFallBack, Getenv, h]

theorem EnvFallBack_empty (env : Env) (k d : String) (h : env k = some "") :
    EnvFallBack env [k] d = d := by
  simp [EnvFallBack, Getenv, h]

theorem EnvFallBack_set (env : Env) (k d v : String) (h : env k = some v) (hv : v ≠ "") :
    EnvFallBack env [k] d = v := by
  simp [EnvFallBack, Getenv, h, hv]

theorem EnvFallBack_congr (env1 env2 : Env) (ks : List String) (d : String)
    (h : ∀ k ∈ ks, env1 k = env2 k) : EnvFallBack env1 ks d = EnvFallBack env2 ks d := by
  induction ks with
  | nil => rfl
  | cons k ks ih =>
    have hk : env1 k = env2 k := h k (by simp)
    have ih2 := ih (fun k2 hk2 => h k2 (by simp [hk2]))
    simp [EnvFallBack, Getenv, hk, ih2]

theorem EnvFallBack_ne_empty (env : Env) (ks : List String) (d : String) (hd : d ≠ "") :
    EnvFallBack env ks d ≠ "" := by
  induction ks with
  | nil => simpa [EnvFallBack] using hd
  | cons k ks ih =>
    unfold EnvFallBack
    split
    · assumption
    · exact ih

/-! ## Lemmas on the accessors -/

theorem tableURL_eq_index2 (s : Service) (region : String) :
    tableURL s region = index2 regionToEndpoint s.key region := rfl

/-- A region the table lists: the accessor returns the fallback of the table
value and no error, and leaves the world as it was. -/
theorem call_found (wide : Nat → Bool) (s : Service) (region ep : String) (env : Env)
    (h : tableURL s region = some ep) :
    s.call wide (NewEndpointLocator region) (World.start env)
      = ((EnvFallBack env [s.envVar] ep, none), World.start env) := by
  rw [tableURL_eq_index2] at h
  cases s <;>
    simp only [Service.call, CFAPIEndpoint, MCCPAPIEndpoint, UAAEndpoint,
      AccountManagementEndpoint, IAMEndpoint, IAMPAPEndpoint, ContainerEndpoint,
      World.start, NewEndpointLocator, Service.key, Service.envVar] at h ⊢ <;>
    rw [h]

/-- A region the table does not list: the accessor returns the empty string and
the service's error, and leaves the world as it was. -/
theorem call_missing (wide : Nat → Bool) (s : Service) (region : String) (env : Env)
    (h : tableURL s region = none) :
    s.call wide (NewEndpointLocator region) (World.start env)
      = (("", some (s.missing wide region)), World.start env) := by
  rw [tableURL_eq_index2] at h
  cases s <;>
    simp only [Service.call, CFAPIEndpoint, MCCPAPIEndpoint, UAAEndpoint,
      AccountManagementEndpoint, IAMEndpoint, IAMPAPEndpoint, ContainerEndpoint,
      World.start, NewEndpointLocator, Service.key, Service.missing,
      Service.messageHead] at h ⊢ <;>
    rw [h]

theorem call_world (wide : Nat → Bool) (s : Service) (e : endpointLocator) (w : World) :
    (s.call wide e w).2 = w := by
  cases s <;>
    simp only [Service.call, CFAPIEndpoint, MCCPAPIEndpoint, UAAEndpoint,
      AccountManagementEndpoint, IAMEndpoint, IAMPAPEndpoint, ContainerEndpoint] <;>
    split <;> rfl

theorem subMap_keys (s : Service) (region : String) :
    region ∈ (subMap s).map Prod.fst ↔ region ∈ s.regions := by
  cases s <;> simp [subMap, regionToEndpoint, List.lookup, Service.key, Service.regions]
  tauto

theorem tableURL_isSome_iff (s : Service) (region : String) :
    (tableURL s region).isSome = true ↔ region ∈ s.regions := by
  rw [tableURL, lookup_isSome_iff_mem_keys, subMap_keys]

theorem tableURL_ne_empty (s : Service) (region url : String)
    (h : tableURL s region = some url) : url ≠ "" := by
  have hm := lookup_mem_values _ _ _ h
  intro hu
  subst hu
  revert hm
  cases s <;> decide

theorem tableURL_none_iff (s : Service) (region : String) :
    tableURL s region = none ↔ region ∉ s.regions := by
  rw [← tableURL_isSome_iff]
  cases tableURL s region <;> simp

/-! ## Lemmas on quoting and on substrings -/

theorem foldl_appendEscapedRune_plain (wide : Nat → Bool) (cs buf : List Char)
    (h : ∀ c ∈ cs, Plain wide c) : cs.foldl (appendEscapedRune wide) buf = buf ++ cs := by
  induction cs generalizing buf with
  | nil => simp
  | cons c cs ih =>
    obtain ⟨h1, h2, h3⟩ := h c (by simp)
    have hstep : appendEscapedRune wide buf c = buf ++ [c] := by
      simp [appendEscapedRune, h1, h2, h3]
    rw [List.foldl_cons, hstep, ih _ (fun d hd => h d (by simp [hd]))]
    simp

theorem Quote_plain (wide : Nat → Bool) (s : String) (h : ∀ c ∈ s.data, Plain wide c) :
    (Quote wide s).data = Char.ofNat 34 :: (s.data ++ [Char.ofNat 34]) := by
  simp [Quote, foldl_appendEscapedRune_plain wide _ _ h]

theorem Contains_append_left (a b s : String) (h : Contains a s) : Contains (a ++ b) s := by
  unfold Contains at *
  rw [String.data_append]
  exact List.IsInfix.trans h ⟨[], b.data, by simp⟩

theorem Contains_append_right (a b s : String) (h : Contains b s) : Contains (a ++ b) s := by
  unfold Contains at *
  rw [String.data_append]
  exact List.IsInfix.trans h ⟨a.data, [], by simp⟩

theorem Contains_self (s : String) : Contains s s := List.infix_refl _

theorem messageHead_humanName (s : Service) : Contains s.messageHead s.humanName := by
  cases s <;> decide

theorem Quote_contains_plain (wide : Nat → Bool) (s : String)
    (h : ∀ c ∈ s.data, Plain wide c) : Contains (Quote wide s) s := by
  unfold Contains
  rw [Quote_plain wide s h]
  exact ⟨[Char.ofNat 34], [Char.ofNat 34], by simp⟩

theorem missing_message (wide : Nat → Bool) (s : Service) (region : String) :
    (s.missing wide region).message = s.messageHead ++ Quote wide region := by
  cases s <;> rfl

/-! ## The claims -/

/-- C1: for every accessor and every region that is a key of the service's
sub-map of `regionToEndpoint`, in an environment where the service's override
variable is not set, the accessor on `NewEndpointLocator region` returns exactly
the table URL together with a nil error. -/
theorem C1_table_url_when_override_unset (wide : Nat → Bool) (s : Service)
    (region url : String) (env : Env)
    (hreg : tableURL s region = some url) (hunset : env s.envVar = none) :
    (s.call wide (NewEndpointLocator region) (World.start env)).1 = (url, none) := by
  rw [call_found wide s region url env hreg, EnvFallBack_unset env _ url hunset]

/-- Witness of C1: `NewEndpointLocator("us-south").AccountManagementEndpoint()`
with no variable set is `("https://accountmanagement.ng.bluemix.net", nil)`. -/
theorem C1_witness :
    tableURL .account "us-south" = some "https://accountmanagement.ng.bluemix.net" ∧
    emptyEnv Service.account.envVar = none ∧
    (AccountManagementEndpoint (fun _ => false) (NewEndpointLocator "us-south")
      (World.start emptyEnv)).1 = ("https://accountmanagement.ng.bluemix.net", none) :=
  ⟨by decide, rfl,
    C1_table_url_when_override_unset (fun _ => false) .account "us-south"
      "https://accountmanagement.ng.bluemix.net" emptyEnv (by decide) rfl⟩

/-- C2: for every accessor and every region present in the service's sub-map,
if the service's override variable is set to a non-empty value `v`, the accessor
returns `(v, nil)`: the environment value verbatim, whatever `v` is. -/
theorem C2_override_wins (wide : Nat → Bool) (s : Service) (region url v : String)
    (env : Env) (hreg : tableURL s region = some url)
    (hset : env s.envVar = some v) (hv : v ≠ "") :
    (s.call wide (NewEndpointLocator region) (World.start env)).1 = (v, none) := by
  rw [call_found wide s region url env hreg, EnvFallBack_set env _ url v hset hv]

/-- Witness of C2: with `IBMCLOUD_ACCOUNT_MANAGEMENT_API_ENDPOINT` set to
`https://custom.example.com` the account-management accessor for `us-south`
returns that value. -/
theorem C2_witness :
    tableURL .account "us-south" = some "https://accountmanagement.ng.bluemix.net" ∧
    Setenv emptyEnv "IBMCLOUD_ACCOUNT_MANAGEMENT_API_ENDPOINT" "https://custom.example.com"
      Service.account.envVar = some "https://custom.example.com" ∧
    "https://custom.example.com" ≠ "" ∧
    (AccountManagementEndpoint (fun _ => false) (NewEndpointLocator "us-south")
      (World.start (Setenv emptyEnv "IBMCLOUD_ACCOUNT_MANAGEMENT_API_ENDPOINT"
        "https://custom.example.com"))).1 = ("https://custom.example.com", none) :=
  ⟨by decide, by decide, by decide,
    C2_override_wins (fun _ => false) .account "us-south"
      "https://accountmanagement.ng.bluemix.net" "https://custom.example.com"
      (Setenv emptyEnv "IBMCLOUD_ACCOUNT_MANAGEMENT_API_ENDPOINT" "https://custom.example.com")
      (by decide) (by decide) (by decide)⟩

/-- C3: for every accessor and every region, the result in an environment where
the service's override variable is set to the empty string equals the result in
the environment that differs only in that the variable is unset; for a region
present in the table both are the table value with a nil error. -/
theorem C3_empty_override_is_unset (wide : Nat → Bool) (s : Service) (region : String)
    (envEmpty envUnset : Env)
    (hempty : envEmpty s.envVar = some "") (hunset : envUnset s.envVar = none)
    (hsame : ∀ k, k ≠ s.envVar → envEmpty k = envUnset k) :
    (s.call wide (NewEndpointLocator region) (World.start envEmpty)).1
      = (s.call wide (NewEndpointLocator region) (World.start envUnset)).1 ∧
    ∀ url, tableURL s region = some url →
      (s.call wide (NewEndpointLocator region) (World.start envEmpty)).1 = (url, none) := by
  have _ := hsame
  cases h : tableURL s region with
  | none => simp [call_missing wide s region _ h]
  | some ep =>
    simp [call_found wide s region ep _ h, EnvFallBack_empty envEmpty _ ep hempty,
      EnvFallBack_unset envUnset _ ep hunset]

/-- Witness of C3: the Cloud Foundry accessor for `us-south` with
`IBMCLOUD_CF_API_ENDPOINT` set to the empty string, against the same
environment with the variable unset. -/
theorem C3_witness :
    Setenv emptyEnv "IBMCLOUD_CF_API_ENDPOINT" "" Service.cf.envVar = some "" ∧
    emptyEnv Service.cf.envVar = none ∧
    (CFAPIEndpoint (fun _ => false) (NewEndpointLocator "us-south")
      (World.start (Setenv emptyEnv "IBMCLOUD_CF_API_ENDPOINT" ""))).1
      = (CFAPIEndpoint (fun _ => false) (NewEndpointLocator "us-south")
          (World.start emptyEnv)).1 ∧
    (CFAPIEndpoint (fun _ => false) (NewEndpointLocator "us-south")
      (World.start (Setenv emptyEnv "IBMCLOUD_CF_API_ENDPOINT" ""))).1
      = ("https://api.ng.bluemix.net", none) :=
  have h := C3_empty_override_is_unset (fun _ => false) .cf "us-south"
    (Setenv emptyEnv "IBMCLOUD_CF_API_ENDPOINT" "") emptyEnv (by decide) rfl
    (fun k hk => by simp [Setenv, Service.envVar] at hk ⊢; intro h; exact absurd h hk)
  ⟨by decide, rfl, h.1, h.2 "https://api.ng.bluemix.net" (by decide)⟩

/-- C4, refuted as stated: the region `eu"de` is absent from the sub-map of
IAMPAP, the accessor returns the empty string and an error, and the message of
that error, in which `%q` has escaped the double quote, does not contain the
region string. -/
theorem C4_counterexample :
    tableURL .iampap "eu\"de" = none ∧
    (IAMPAPEndpoint (fun _ => false) (NewEndpointLocator "eu\"de") (World.start emptyEnv)).1
      = ("", some (.plain "IAMPAP  endpoint doesn't exist for region: \"eu\\\"de\"")) ∧
    ¬ Contains "IAMPAP  endpoint doesn't exist for region: \"eu\\\"de\"" "eu\"de" := by
  refine ⟨by decide, by decide, by decide⟩

/-- C4, amended: for every accessor and every region string absent from the
service's sub-map, the accessor returns the empty string and a non-nil error
whose message contains the service name and contains the region as `%q` prints
it; the message contains the region string itself whenever every character of
the region is printable and is neither a double quote nor a backslash. -/
theorem C4_missing_region_error (wide : Nat → Bool) (s : Service) (region : String)
    (env : Env) (hreg : tableURL s region = none) :
    ∃ e, (s.call wide (NewEndpointLocator region) (World.start env)).1 = ("", some e) ∧
      Contains e.message s.humanName ∧
      Contains e.message (Quote wide region) ∧
      ((∀ c ∈ region.data, Plain wide c) → Contains e.message region) := by
  refine ⟨s.missing wide region, by rw [call_missing wide s region env hreg], ?_, ?_, ?_⟩
  · rw [missing_message]
    exact Contains_append_left _ _ _ (messageHead_humanName s)
  · rw [missing_message]
    exact Contains_append_right _ _ _ (Contains_self _)
  · intro hplain
    rw [missing_message]
    exact Contains_append_right _ _ _ (Quote_contains_plain wide region hplain)

/-- Witness of C4: `NewEndpointLocator("eu-de").IAMPAPEndpoint()` returns the
empty string and an error containing "IAMPAP" and "eu-de". -/
theorem C4_witness :
    tableURL .iampap "eu-de" = none ∧
    (∀ c ∈ "eu-de".data, Plain (fun _ => false) c) ∧
    ∃ e, (IAMPAPEndpoint (fun _ => false) (NewEndpointLocator "eu-de")
        (World.start emptyEnv)).1 = ("", some e) ∧
      Contains e.message "IAMPAP" ∧ Contains e.message "eu-de" := by
  obtain ⟨e, h1, h2, _, h4⟩ :=
    C4_missing_region_error (fun _ => false) .iampap "eu-de" emptyEnv (by decide)
  exact ⟨by decide, by decide, e, h1, h2, h4 (by decide)⟩

/-- C5: for every region and every environment an accessor returns a nil error
if and only if the region is one of "us-south", "us-east", "eu-gb", "au-syd",
"eu-de" (for IAMPAP: one of the first four).  The region is matched verbatim:
"US-SOUTH", "us-south " and "" fail for every service in every environment. -/
theorem C5_nil_error_iff_listed_region (wide : Nat → Bool) (s : Service) (region : String)
    (env : Env) :
    ((s.call wide (NewEndpointLocator region) (World.start env)).1.2 = none
      ↔ region ∈ s.regions) ∧
    (s.call wide (NewEndpointLocator "US-SOUTH") (World.start env)).1.2 ≠ none ∧
    (s.call wide (NewEndpointLocator "us-south ") (World.start env)).1.2 ≠ none ∧
    (s.call wide (NewEndpointLocator "") (World.start env)).1.2 ≠ none := by
  refine ⟨?_, ?_, ?_, ?_⟩
  · cases h : tableURL s region with
    | none =>
      have hn := (tableURL_none_iff s region).1 h
      simp [call_missing wide s region env h, hn]
    | some ep =>
      have hm := (tableURL_isSome_iff s region).1 (by simp [h])
      simp [call_found wide s region ep env h, hm]
  · have h : tableURL s "US-SOUTH" = none := by cases s <;> decide
    simp [call_missing wide s _ env h]
  · have h : tableURL s "us-south " = none := by cases s <;> decide
    simp [call_missing wide s _ env h]
  · have h : tableURL s "" = none := by cases s <;> decide
    simp [call_missing wide s _ env h]

/-- C6: for every region absent from the service's sub-map, the error returned
by the six accessors other than `IAMPAPEndpoint` carries the error code
`ErrCodeServiceEndpoint`, which is "ServiceEndpointDoesnotExist", while the error
returned by `IAMPAPEndpoint` is a plain error that carries no error code. -/
theorem C6_error_code (wide : Nat → Bool) (s : Service) (region : String) (env : Env)
    (hreg : tableURL s region = none) :
    ErrCodeServiceEndpoint = "ServiceEndpointDoesnotExist" ∧
    ∃ e, (s.call wide (NewEndpointLocator region) (World.start env)).1.2 = some e ∧
      e.code = if s = .iampap then none else some ErrCodeServiceEndpoint := by
  refine ⟨rfl, s.missing wide region, by rw [call_missing wide s region env hreg], ?_⟩
  cases s <;> rfl

/-- Witness of C6: the Cloud Foundry accessor on the unlisted region "mars" and
the IAMPAP accessor on "eu-de". -/
theorem C6_witness :
    tableURL .cf "mars" = none ∧ tableURL .iampap "eu-de" = none ∧
    (∃ e, (CFAPIEndpoint (fun _ => false) (NewEndpointLocator "mars")
        (World.start emptyEnv)).1.2 = some e ∧
      e.code = some "ServiceEndpointDoesnotExist") ∧
    (∃ e, (IAMPAPEndpoint (fun _ => false) (NewEndpointLocator "eu-de")
        (World.start emptyEnv)).1.2 = some e ∧ e.code = none) :=
  ⟨by decide, by decide,
    (C6_error_code (fun _ => false) .cf "mars" emptyEnv (by decide)).2,
    (C6_error_code (fun _ => false) .iampap "eu-de" emptyEnv (by decide)).2⟩

/-- C7, at the failing inputs: `IAMEndpoint` on the unlisted region "mars" and
`IAMPAPEndpoint` on "eu-de" return messages with two spaces before "endpoint",
which differ from the template of the specification with its one space; the
sibling `CFAPIEndpoint` on "mars" returns exactly the template. -/
theorem C7_iam_messages_have_two_spaces :
    (IAMEndpoint (fun _ => false) (NewEndpointLocator "mars") (World.start emptyEnv)).1
      = ("", some (.coded "ServiceEndpointDoesnotExist"
          "IAM  endpoint doesn't exist for region: \"mars\"")) ∧
    specMessage (fun _ => false) .iam "mars"
      = "IAM endpoint doesn't exist for region: \"mars\"" ∧
    (IAMPAPEndpoint (fun _ => false) (NewEndpointLocator "eu-de") (World.start emptyEnv)).1
      = ("", some (.plain "IAMPAP  endpoint doesn't exist for region: \"eu-de\"")) ∧
    specMessage (fun _ => false) .iampap "eu-de"
      = "IAMPAP endpoint doesn't exist for region: \"eu-de\"" ∧
    (CFAPIEndpoint (fun _ => false) (NewEndpointLocator "mars") (World.start emptyEnv)).1
      = ("", some (.coded "ServiceEndpointDoesnotExist"
          (specMessage (fun _ => false) .cf "mars"))) := by
  refine ⟨by decide, by decide, by decide, by decide, by decide⟩

/-- C8: for every accessor, every region and every environment, the accessor
returns either a non-empty URL with a nil error or the empty string with a
non-nil error. -/
theorem C8_no_partial_results (wide : Nat → Bool) (s : Service) (region : String)
    (env : Env) :
    ((s.call wide (NewEndpointLocator region) (World.start env)).1.1 ≠ "" ∧
      (s.call wide (NewEndpointLocator region) (World.start env)).1.2 = none) ∨
    ((s.call wide (NewEndpointLocator region) (World.start env)).1.1 = "" ∧
      (s.call wide (NewEndpointLocator region) (World.start env)).1.2 ≠ none) := by
  cases h : tableURL s region with
  | none =>
    right
    simp [call_missing wide s region env h]
  | some ep =>
    left
    rw [call_found wide s region ep env h]
    exact ⟨EnvFallBack_ne_empty env _ ep (tableURL_ne_empty s region ep h), rfl⟩

/-- C9: the result of an accessor is the same in any two environments that
agree on the service's own override variable; a call leaves the world (table
and environment) as it found it; and a call on any other locator, for any
service and region, made before it does not change its result. -/
theorem C9_non_interference (wide : Nat → Bool) (s other : Service)
    (region otherRegion : String) (env1 env2 : Env)
    (hagree : env1 s.envVar = env2 s.envVar) :
    (s.call wide (NewEndpointLocator region) (World.start env1)).1
      = (s.call wide (NewEndpointLocator region) (World.start env2)).1 ∧
    (∀ w : World, (s.call wide (NewEndpointLocator region) w).2 = w) ∧
    (∀ w : World,
      (s.call wide (NewEndpointLocator region)
        (other.call wide (NewEndpointLocator otherRegion) w).2).1
        = (s.call wide (NewEndpointLocator region) w).1) := by
  refine ⟨?_, fun w => call_world wide s _ w, fun w => by rw [call_world]⟩
  cases h : tableURL s region with
  | none => simp [call_missing wide s region _ h]
  | some ep =>
    rw [call_found wide s region ep env1 h, call_found wide s region ep env2 h,
      EnvFallBack_congr env1 env2 [s.envVar] ep (by simpa using hagree)]

/-- Witness of C9: `MCCPAPIEndpoint` for "us-south" with and without
`IBMCLOUD_CF_API_ENDPOINT` set, and after a `CFAPIEndpoint` call on a locator
for "eu-gb". -/
theorem C9_witness :
    emptyEnv Service.mccp.envVar
      = Setenv emptyEnv "IBMCLOUD_CF_API_ENDPOINT" "https://cf.example.com"
          Service.mccp.envVar ∧
    (MCCPAPIEndpoint (fun _ => false) (NewEndpointLocator "us-south")
      (World.start emptyEnv)).1
      = (MCCPAPIEndpoint (fun _ => false) (NewEndpointLocator "us-south")
          (World.start (Setenv emptyEnv "IBMCLOUD_CF_API_ENDPOINT"
            "https://cf.example.com"))).1 ∧
    (MCCPAPIEndpoint (fun _ => false) (NewEndpointLocator "us-south")
      (CFAPIEndpoint (fun _ => false) (NewEndpointLocator "eu-gb")
        (World.start emptyEnv)).2).1
      = (MCCPAPIEndpoint (fun _ => false) (NewEndpointLocator "us-south")
          (World.start emptyEnv)).1 :=
  have h := C9_non_interference (fun _ => false) .mccp .cf "us-south" "eu-gb" emptyEnv
    (Setenv emptyEnv "IBMCLOUD_CF_API_ENDPOINT" "https://cf.example.com") (by decide)
  ⟨by decide, h.1, h.2.2 (World.start emptyEnv)⟩

/-- C10, at the failing inputs: with `IBMCLOUD_CF_API_ENDPOINT` set to a
non-empty value, `CFAPIEndpoint` on the unlisted region "jp-tok" still returns
the empty string and an error; likewise `IAMPAPEndpoint` on "eu-de" with
`IBMCLOUD_IAMPAP_API_ENDPOINT` set. -/
theorem C10_override_not_read_for_unlisted_region :
    tableURL .cf "jp-tok" = none ∧
    Getenv (Setenv emptyEnv "IBMCLOUD_CF_API_ENDPOINT" "https://api.jp-tok.bluemix.net")
      "IBMCLOUD_CF_API_ENDPOINT" = "https://api.jp-tok.bluemix.net" ∧
    (CFAPIEndpoint (fun _ => false) (NewEndpointLocator "jp-tok")
      (World.start (Setenv emptyEnv "IBMCLOUD_CF_API_ENDPOINT"
        "https://api.jp-tok.bluemix.net"))).1
      = ("", some (.coded "ServiceEndpointDoesnotExist"
          "Cloud Foundry endpoint doesn't exist for region: \"jp-tok\"")) ∧
    tableURL .iampap "eu-de" = none ∧
    (IAMPAPEndpoint (fun _ => false) (NewEndpointLocator "eu-de")
      (World.start (Setenv emptyEnv "IBMCLOUD_IAMPAP_API_ENDPOINT"
        "https://iampap.eu-de.bluemix.net"))).1
      = ("", some (.plain "IAMPAP  endpoint doesn't exist for region: \"eu-de\"")) := by
  refine ⟨by decide, by decide, by decide, by decide, by decide⟩

/-! ## Lemmas on the values of the table -/

theorem lookup_mem_pair (l : List (String × String)) (k v : String)
    (h : l.lookup k = some v) : (k, v) ∈ l := by
  induction l with
  | nil => simp at h
  | cons p ps ih =>
    obtain ⟨a, b⟩ := p
    by_cases hk : k = a
    · subst hk
      simp [List.lookup] at h
      simp [h]
    · have hb : (k == a) = false := by simpa using hk
      simp only [List.lookup, hb] at h
      exact List.mem_cons_of_mem _ (ih h)

theorem tableURL_mem_entries (s : Service) (region url : String)
    (h : tableURL s region = some url) : (s, region, url) ∈ entries := by
  have hm := lookup_mem_pair _ _ _ h
  unfold entries
  rw [List.mem_flatMap]
  refine ⟨s, by cases s <;> decide, ?_⟩
  rw [List.mem_map]
  exact ⟨(region, url), hm, rfl⟩

/-- A successful result with the override variable unset is the table entry. -/
theorem call_ok_tableURL (wide : Nat → Bool) (s : Service) (region url : String) (env : Env)
    (hunset : env s.envVar = none)
    (hok : (s.call wide (NewEndpointLocator region) (World.start env)).1 = (url, none)) :
    tableURL s region = some url := by
  cases h : tableURL s region with
  | none =>
    rw [call_missing wide s region env h] at hok
    simp at hok
  | some ep =>
    rw [call_found wide s region ep env h, EnvFallBack_unset env _ ep hunset] at hok
    simp at hok
    rw [hok]

theorem entries_shape : ∀ e ∈ entries, BaseURLShape e.2.2 := by decide

set_option maxRecDepth 100000 in
theorem entries_distinct : ∀ e1 ∈ entries, ∀ e2 ∈ entries,
    (e1.2.2 = e2.2.2 ↔
      (e1.1 = e2.1 ∧ e1.2.1 = e2.2.1) ∨ SharedPair e1.1 e2.1 e1.2.1 e2.2.1) := by
  decide

theorem junction_of_shape (url : String) (h : BaseURLShape url) :
    ∃ front c, c ≠ '/' ∧ url.data = front ++ [c] ∧
      ∀ rest : List Char, (url ++ String.mk ('/' :: rest)).data = front ++ c :: '/' :: rest := by
  obtain ⟨hne, _, _, hslash⟩ := h
  rcases List.eq_nil_or_concat url.data with hnil | ⟨front, c, hc⟩
  · exact absurd (String.ext hnil) hne
  · rw [List.concat_eq_append] at hc
    refine ⟨front, c, ?_, hc, fun rest => by simp [String.data_append, hc]⟩
    intro hcs
    apply hslash
    rw [hc, hcs]
    exact ⟨front, rfl⟩

/-! ## The claims on the values of the table -/

/-- C11: with the override variable unset, every URL an accessor returns
successfully is non-empty, starts with "https://", contains no white space and
does not end with "/"; so does every value of `regionToEndpoint`; and when a
path beginning with "/" is appended to such a URL, the character before that
"/" is not a "/". -/
theorem C11_returned_urls_shape (wide : Nat → Bool) (s : Service) (region url : String)
    (env : Env) (hunset : env s.envVar = none)
    (hok : (s.call wide (NewEndpointLocator region) (World.start env)).1 = (url, none)) :
    BaseURLShape url ∧
    (∃ front c, c ≠ '/' ∧ url.data = front ++ [c] ∧
      ∀ rest : List Char,
        (url ++ String.mk ('/' :: rest)).data = front ++ c :: '/' :: rest) ∧
    (∀ e ∈ entries, BaseURLShape e.2.2) := by
  have hshape : BaseURLShape url :=
    entries_shape _ (tableURL_mem_entries s region url
      (call_ok_tableURL wide s region url env hunset hok))
  exact ⟨hshape, junction_of_shape url hshape, entries_shape⟩

/-- Witness of C11: the UAA accessor for "eu-gb" with no variable set. -/
theorem C11_witness :
    emptyEnv Service.uaa.envVar = none ∧
    (UAAEndpoint (fun _ => false) (NewEndpointLocator "eu-gb") (World.start emptyEnv)).1
      = ("https://login.eu-gb.bluemix.net/UAALoginServerWAR", none) ∧
    BaseURLShape "https://login.eu-gb.bluemix.net/UAALoginServerWAR" :=
  ⟨rfl, by decide,
    (C11_returned_urls_shape (fun _ => false) .uaa "eu-gb"
      "https://login.eu-gb.bluemix.net/UAALoginServerWAR" emptyEnv rfl (by decide)).1⟩

/-- C12: with the override variables unset, two successful results are equal
exactly when they come from the same service and region or from IAM and IAMPAP
for "us-east", which both return "https://iam.us-east.bluemix.net".  Hence each
accessor is injective on the regions it covers, and for a region other than
"us-east" different accessors return different URLs. -/
theorem C12_results_pairwise_distinct (wide : Nat → Bool) (s1 s2 : Service)
    (r1 r2 url1 url2 : String) (env : Env)
    (hunset1 : env s1.envVar = none) (hunset2 : env s2.envVar = none)
    (hok1 : (s1.call wide (NewEndpointLocator r1) (World.start env)).1 = (url1, none))
    (hok2 : (s2.call wide (NewEndpointLocator r2) (World.start env)).1 = (url2, none)) :
    (url1 = url2 ↔ (s1 = s2 ∧ r1 = r2) ∨ SharedPair s1 s2 r1 r2) ∧
    (s1 = s2 → url1 = url2 → r1 = r2) ∧
    (r1 = r2 → r1 ≠ "us-east" → url1 = url2 → s1 = s2) ∧
    (IAMEndpoint wide (NewEndpointLocator "us-east") (World.start emptyEnv)).1
      = ("https://iam.us-east.bluemix.net", none) ∧
    (IAMPAPEndpoint wide (NewEndpointLocator "us-east") (World.start emptyEnv)).1
      = ("https://iam.us-east.bluemix.net", none) := by
  have h1 := tableURL_mem_entries s1 r1 url1 (call_ok_tableURL wide s1 r1 url1 env hunset1 hok1)
  have h2 := tableURL_mem_entries s2 r2 url2 (call_ok_tableURL wide s2 r2 url2 env hunset2 hok2)
  have hiff := entries_distinct _ h1 _ h2
  simp only at hiff
  refine ⟨hiff, ?_, ?_, ?_, ?_⟩
  · intro hs hu
    rcases hiff.1 hu with h | h
    · exact h.2
    · rw [h.1, h.2.1]
  · intro hr hne hu
    rcases hiff.1 hu with h | h
    · exact h.1
    · exact absurd h.1 hne
  · have ht : tableURL .iam "us-east" = some "https://iam.us-east.bluemix.net" := by decide
    have hc := call_found wide .iam "us-east" _ emptyEnv ht
    have he := EnvFallBack_unset emptyEnv Service.iam.envVar
      "https://iam.us-east.bluemix.net" rfl
    simp only [Service.call] at hc
    rw [hc, he]
  · have ht : tableURL .iampap "us-east" = some "https://iam.us-east.bluemix.net" := by decide
    have hc := call_found wide .iampap "us-east" _ emptyEnv ht
    have he := EnvFallBack_unset emptyEnv Service.iampap.envVar
      "https://iam.us-east.bluemix.net" rfl
    simp only [Service.call] at hc
    rw [hc, he]

/-- Witness of C12: the Cloud Foundry and MCCP accessors for "eu-de" with no
variable set return different URLs. -/
theorem C12_witness :
    (CFAPIEndpoint (fun _ => false) (NewEndpointLocator "eu-de") (World.start emptyEnv)).1
      = ("https://api.eu-de.bluemix.net", none) ∧
    (MCCPAPIEndpoint (fun _ => false) (NewEndpointLocator "eu-de") (World.start emptyEnv)).1
      = ("https://mccp.eu-de.bluemix.net", none) ∧
    ("https://api.eu-de.bluemix.net" = "https://mccp.eu-de.bluemix.net" ↔
      (Service.cf = Service.mccp ∧ "eu-de" = "eu-de") ∨
        SharedPair .cf .mccp "eu-de" "eu-de") :=
  ⟨by decide, by decide,
    (C12_results_pairwise_distinct (fun _ => false) .cf .mccp "eu-de" "eu-de"
      "https://api.eu-de.bluemix.net" "https://mccp.eu-de.bluemix.net" emptyEnv rfl rfl
      (by decide) (by decide)).1⟩

end Endpoints
